import Mathlib

/-!
Shallow embedding of `dx_environment.py` (delphixpy-examples): the action
functions `enable_environment`, `disable_environment`, `update_host_address`,
`list_env`, `delete_env`, `refresh_env`, `create_linux_env`,
`create_windows_env`, and the exit-code ladder of `main`.

Vendor SDK calls (`environment.enable`, `environment.create`, `host.update`,
...) are modelled as explicit function parameters returning `Except PyErr
String` (the job reference the engine records as `last_job` on success).
Library helpers from `lib/` that are not part of `src/`
(`get_references.find_obj_by_name`, `find_all_objects`, `find_obj_name`,
`GetSession`) are modelled from the spec, as noted on their definitions.
-/

namespace DxEnv

/-- Shape of a Python value as far as the interpreter's `SystemExit`
handling inspects it: `None`, an `int`, a `str`, or an exception object
carrying a `code` attribute (the case of `SystemExit` instances). -/
inductive PyVal where
  | vnone
  | vint (n : Int)
  | vstr (s : String)
  | vexc (code : PyVal)
deriving DecidableEq, Repr

/-- Exception kinds that flow through `dx_environment.py`:
`dlpx_exceptions.DlpxException` / `DlpxObjectNotFound` (local),
`exceptions.RequestError` / `HttpError` / `JobError` (vendor), plus the
builtin `AttributeError`, `KeyError`, `KeyboardInterrupt` and `SystemExit`
(whose argument is an arbitrary Python value). -/
inductive PyErr where
  | dlpxException (msg : String)
  | dlpxObjectNotFound (msg : String)
  | requestError (msg : String)
  | httpError (msg : String)
  | jobError (msg : String)
  | attributeError (msg : String)
  | keyError (msg : String)
  | keyboardInterrupt
  | systemExit (code : PyVal)
deriving DecidableEq, Repr

/-- `str(err)` as interpolated into the scripts' f-strings. -/
def PyErr.message : PyErr → String
  | .dlpxException m => m
  | .dlpxObjectNotFound m => m
  | .requestError m => m
  | .httpError m => m
  | .jobError m => m
  | .attributeError m => m
  | .keyError m => m
  | .keyboardInterrupt => "KeyboardInterrupt"
  | .systemExit _ => "SystemExit"

/-- The exception classes matched by `except (dlpx_exceptions.DlpxException,
exceptions.RequestError)`.  `DlpxObjectNotFound` subclasses `DlpxException`
(spec §7: "a local exception kind for object not found / generic Delphix
errors"). -/
def PyErr.isDlpxOrRequest : PyErr → Bool
  | .dlpxException _ => true
  | .dlpxObjectNotFound _ => true
  | .requestError _ => true
  | _ => false

/-- The exception classes matched by `except (dlpx_exceptions.DlpxException,
exceptions.RequestError, exceptions.HttpError)` in the two create
functions. -/
def PyErr.isDlpxRequestOrHttp : PyErr → Bool
  | .dlpxException _ => true
  | .dlpxObjectNotFound _ => true
  | .requestError _ => true
  | .httpError _ => true
  | _ => false

/-- Python truthiness of an optional string argument (`docopt` yields `None`
for an absent flag): `None` and `''` are falsy. -/
def pyTruthy : Option String → Bool
  | none => false
  | some s => s ≠ ""

/-- f-string rendering of an optional string (`None` prints as `None`). -/
def pyShow : Option String → String
  | none => "None"
  | some s => s

/- ## Vendor value objects (`vo.*`) as built by the script -/

/-- `vo.UnixHost` as mutated in `create_linux_env`: fields start unset and
are assigned one by one. -/
structure UnixHostVO where
  address : Option String := none
  toolkit_path : Option String := none
deriving DecidableEq, Repr

/-- `vo.WindowsHost` as mutated in `create_windows_env`. -/
structure WindowsHostVO where
  connector_port : Option Nat := none
  address : Option String := none
deriving DecidableEq, Repr

/-- The credential objects assigned to `primary_user.credential`:
`vo.SystemKeyCredential()` or `vo.PasswordCredential()` with its `password`
field (unset on construction, then assigned). -/
inductive CredentialVO where
  | systemKeyCredential
  | passwordCredential (password : Option String)
deriving DecidableEq, Repr

/-- `vo.EnvironmentUser` as built by both create functions. -/
structure EnvironmentUserVO where
  name : Option String := none
  credential : Option CredentialVO := none
deriving DecidableEq, Repr

/-- The `credentials` dictionary literal assigned to the ASE parameters:
`{'type': 'PasswordCredential', 'password': ase_pw}` (the password entry may
hold `None`). -/
structure AseCredDict where
  ctype : String
  password : Option String
deriving DecidableEq, Repr

/-- `vo.ASEHostEnvironmentParameters` as mutated in `create_linux_env`. -/
structure ASEHostEnvironmentParametersVO where
  db_user : Option String := none
  credentials : Option AseCredDict := none
deriving DecidableEq, Repr

/-- The successive objects assigned to `env_params_obj.host_environment`:
first a `vo.UnixHostCreateParameters` carrying a host with address and
toolkit path, later replaced by a bare `vo.UnixHostEnvironment`; on the
Windows path a `vo.WindowsHostEnvironment` with an optional `proxy`.
Each carries only the fields the script ever assigns, plus the `host`
field of `UnixHostEnvironment`, which the script never assigns (kept here
to record that it stays unset). -/
inductive HostEnvVO where
  | unixHostCreateParameters (name : Option String) (host : Option UnixHostVO)
  | unixHostEnvironment (name : Option String) (host : Option UnixHostVO)
      (ase_host_environment_parameters : Option ASEHostEnvironmentParametersVO)
  | windowsHostEnvironment (name : Option String) (proxy : Option String)
deriving DecidableEq, Repr

/-- The object assigned to `env_params_obj.host_parameters`: on the Linux
path a plain dictionary literal `{'host': {'address': ..., 'type':
'UnixHost', 'name': ..., 'toolkitPath': ...}}`, on the Windows path a
`vo.WindowsHostCreateParameters`. -/
inductive HostParamsVO where
  | dict (address : String) (htype : String) (name : String) (toolkitPath : String)
  | windowsHostCreateParameters (name : Option String) (host : Option WindowsHostVO)
deriving DecidableEq, Repr

/-- `vo.HostEnvironmentCreateParameters` as assembled by the two create
functions and passed to `environment.create`. -/
structure HostEnvironmentCreateParameters where
  host_environment : Option HostEnvVO := none
  primary_user : Option EnvironmentUserVO := none
  host_parameters : Option HostParamsVO := none
deriving DecidableEq, Repr

/-- The host object built by `update_host_address` and passed to
`host.update`: `vo.WindowsHost()` or `vo.UnixHost()` depending on the
resolved host's type, then `host_obj.address = new_host_address`.  The
`name` field is never assigned (it is only read, as `None`, in the error
log line). -/
inductive HostUpdateVO where
  | windowsHost (address : Option String) (name : Option String)
  | unixHost (address : Option String) (name : Option String)
deriving DecidableEq, Repr

/-- `host_obj.name` as interpolated into `update_host_address`'s log line. -/
def HostUpdateVO.nameStr : HostUpdateVO → String
  | .windowsHost _ n => pyShow n
  | .unixHost _ n => pyShow n

/- ## Engine-side objects returned by the lookup helpers -/

/-- An environment object as the script reads it: `name`, `reference`,
`type`, `host` (absent on cluster environments, making `env.host` raise
`AttributeError`), `primary_user`, `enabled`, and the optional ASE
parameters shown by `list_env`. -/
structure EnvObj where
  name : String
  reference : String
  envType : String
  host : Option String
  primary_user : String
  enabled : Bool
  ase_host_environment_parameters : Option ASEHostEnvironmentParametersVO := none
deriving DecidableEq, Repr

/-- A host object as the script reads it: `name`, `reference`, `type`
(`'WindowsHost'` or a Unix type), `address`. -/
structure HostObj where
  name : String
  reference : String
  hostType : String
  address : String
deriving DecidableEq, Repr

/-- Modelled from the spec: `lib.get_session.GetSession` (not under `src/`),
"a session object exposing `dlpx_session()`, `job_mode()`, `jobs` mapping"
(spec §6), where `jobs` is "a process-local mapping from engine name to last
job reference" (spec §3).  `dlpx_engines` holds the configured engines;
`dlpx_engines.keys()[0]` is modelled as the first engine name (theorems use
sessions with at least one engine).  `environments`, `hosts` and `envUsers`
are the engine inventory consulted by the lookup helpers. -/
structure Session where
  dlpx_engines : List String
  jobs : List (String × String)
  environments : List EnvObj
  hosts : List HostObj
  envUsers : List (String × String) := []
deriving DecidableEq, Repr

/-- `dlpx_obj.dlpx_engines.keys()[0]`. -/
def Session.engineName (s : Session) : String := s.dlpx_engines.headD ""

/-- Python dictionary assignment `jobs[k] = v` on the association-list
model of the jobs mapping. -/
def setKey (m : List (String × String)) (k v : String) : List (String × String) :=
  if m.any (fun p => p.1 = k) then
    m.map (fun p => if p.1 = k then (k, v) else p)
  else
    m ++ [(k, v)]

/-- Modelled from the spec: `lib.get_references.find_obj_by_name` for the
`environment` class (not under `src/`; spec §6 "an object-lookup helper
exposing `find_obj_by_name` ... against the vendor's object model").
Resolution failure is represented by `none`, matching the `src/` callers
that branch on the result being `None` (`delete_env`, `create_windows_env`). -/
def find_env_by_name (envs : List EnvObj) (name : String) : Option EnvObj :=
  envs.find? (fun e => e.name = name)

/-- Modelled from the spec: `lib.get_references.find_obj_by_name` for the
`host` class. -/
def find_host_by_name (hosts : List HostObj) (name : String) : Option HostObj :=
  hosts.find? (fun h => h.name = name)

/-- Modelled from the spec: `lib.get_references.find_all_objects` for the
`environment` class, returning every environment on the engine. -/
def find_all_environments (s : Session) : List EnvObj := s.environments

/-- Modelled from the spec: `lib.get_references.find_obj_name`, mapping an
object reference to the object's name; a reference the engine does not know
raises a local Delphix error. -/
def find_obj_name (table : List (String × String)) (ref : String) :
    Except PyErr String :=
  match table.find? (fun p => p.1 = ref) with
  | some p => .ok p.2
  | none => .error (.dlpxException ("object not found: " ++ ref))

/-- One vendor call issued by an action function, with the request data the
script passed to it. -/
inductive Call where
  | enableCall (ref : String)
  | disableCall (ref : String)
  | deleteCall (ref : String)
  | refreshCall (ref : String)
  | createCall (params : HostEnvironmentCreateParameters)
  | hostUpdateCall (ref : String) (hostObj : HostUpdateVO)
  | getAllCall
deriving DecidableEq, Repr

deriving instance DecidableEq for Except

/-- Observable outcome of one action-function invocation: the session after
the call (its `jobs` mapping possibly updated), the vendor calls issued in
order, the messages logged through `dx_logging.print_exception`, the lines
printed to stdout, and the normal-return/raised-exception result. -/
structure ActionResult where
  session : Session
  calls : List Call := []
  logged : List String := []
  printed : List String := []
  result : Except PyErr Unit := .ok ()
deriving DecidableEq, Repr

/- ## Action functions -/

/-- The shared `try: <vendor call> except (DlpxException, RequestError)`
shape of `enable_environment`, `disable_environment` and
`update_host_address`: the call is issued; a caught failure is logged
through `dx_logging.print_exception` and the function returns normally;
any other failure propagates.  The session (in particular its jobs
mapping) is never touched. -/
def loggedCallTail (s : Session) (call : Call) (logMsg : String → String)
    (outcome : Except PyErr String) : ActionResult :=
  match outcome with
  | .ok _ => { session := s, calls := [call] }
  | .error err =>
      if err.isDlpxOrRequest then
        { session := s, calls := [call],
          logged := [logMsg err.message] }
      else
        { session := s, calls := [call], result := .error err }

/-- `enable_environment` (src/dx_environment.py:106-120).  The lookup is
outside the `try`; the vendor call `environment.enable` is guarded by
`except (DlpxException, RequestError)`, which logs and returns normally
(`loggedCallTail`).  When the lookup yields `None`, evaluating
`env_obj.reference` raises `AttributeError`, which no handler here
catches. -/
def enable_environment (s : Session) (env_name : String)
    (enableV : String → Except PyErr String) : ActionResult :=
  match find_env_by_name s.environments env_name with
  | none =>
      { session := s,
        result := .error (.attributeError
          "NoneType object has no attribute reference") }
  | some env_obj =>
      loggedCallTail s (.enableCall env_obj.reference)
        (fun m => "ERROR: Enabling the host " ++ env_name ++
          " encountered an error:\n" ++ m)
        (enableV env_obj.reference)

/-- `disable_environment` (src/dx_environment.py:123-137), same shape as
`enable_environment`. -/
def disable_environment (s : Session) (env_name : String)
    (disableV : String → Except PyErr String) : ActionResult :=
  match find_env_by_name s.environments env_name with
  | none =>
      { session := s,
        result := .error (.attributeError
          "NoneType object has no attribute reference") }
  | some env_obj =>
      loggedCallTail s (.disableCall env_obj.reference)
        (fun m => "ERROR: Disabling the host " ++ env_name ++
          " encountered an error:\n" ++ m)
        (disableV env_obj.reference)

/-- `update_host_address` (src/dx_environment.py:140-161).  A
`vo.WindowsHost()` is built when the resolved host's `type` is
`'WindowsHost'`, else a `vo.UnixHost()`; in both cases
`host_obj.address = new_host_address` is then assigned.  A failing
`host.update` guarded by `except (DlpxException, RequestError)` is logged
(the message reads `host_obj.name`, which was never assigned). -/
def update_host_address (s : Session)
    (old_host_address new_host_address : String)
    (updateV : String → HostUpdateVO → Except PyErr String) : ActionResult :=
  match find_host_by_name s.hosts old_host_address with
  | none =>
      { session := s,
        result := .error (.attributeError
          "NoneType object has no attribute type") }
  | some old_host_obj =>
      let host_obj : HostUpdateVO :=
        if old_host_obj.hostType = "WindowsHost" then
          .windowsHost (some new_host_address) none
        else
          .unixHost (some new_host_address) none
      loggedCallTail s (.hostUpdateCall old_host_obj.reference host_obj)
        (fun m => "ERROR: Updating the host " ++ host_obj.nameStr ++
          " encountered an error:\n" ++ m)
        (updateV old_host_obj.reference host_obj)

/-- `delete_env` (src/dx_environment.py:193-209).  When the lookup
succeeds, `environment.delete` is issued (unguarded: any failure
propagates) and the job reference is stored.  When it yields `None`, the
`elif env_obj is None:` branch constructs
`DlpxObjectNotFound(f'Environment was not found: {env_name}')` WITHOUT a
`raise`: the exception object is discarded and the function returns
normally, issuing no delete call and leaving `jobs` unchanged. -/
def delete_env (s : Session) (env_name : String)
    (deleteV : String → Except PyErr String) : ActionResult :=
  let engine_name := s.engineName
  match find_env_by_name s.environments env_name with
  | some env_obj =>
      match deleteV env_obj.reference with
      | .ok job =>
          { session := { s with jobs := setKey s.jobs engine_name job },
            calls := [.deleteCall env_obj.reference] }
      | .error err =>
          { session := s, calls := [.deleteCall env_obj.reference],
            result := .error err }
  | none => { session := s }

/-- The `for env_obj in env_list:` loop of `refresh_env("all")`
(src/dx_environment.py:224-231), threading the jobs mapping.  On a
successful refresh the job reference is stored; a failure caught by
`except (DlpxException, RequestError)` constructs a `DlpxException(...)`
that is neither raised nor logged (the object is discarded) and the loop
continues; any other failure propagates, aborting the loop.  Returns the
final jobs mapping, the refresh calls issued, and the loop's outcome. -/
def refreshAllLoop (engine_name : String)
    (refreshV : String → Except PyErr String) :
    List EnvObj → List (String × String) →
    List (String × String) × List Call × Except PyErr Unit
  | [], jobs => (jobs, [], .ok ())
  | env_obj :: rest, jobs =>
      match refreshV env_obj.reference with
      | .ok job =>
          let r := refreshAllLoop engine_name refreshV rest
            (setKey jobs engine_name job)
          (r.1, .refreshCall env_obj.reference :: r.2.1, r.2.2)
      | .error err =>
          if err.isDlpxOrRequest then
            let r := refreshAllLoop engine_name refreshV rest jobs
            (r.1, .refreshCall env_obj.reference :: r.2.1, r.2.2)
          else
            (jobs, [.refreshCall env_obj.reference], .error err)

/-- `refresh_env` (src/dx_environment.py:212-240).  With `env_name =
"all"` it loops over every environment (see `refreshAllLoop`); otherwise
it resolves the name and refreshes it, re-raising a caught
`DlpxException`/`RequestError` wrapped as
`DlpxException(f'Refreshing {env_name} encountered an error:...')`. -/
def refresh_env (s : Session) (env_name : String)
    (refreshV : String → Except PyErr String) : ActionResult :=
  let engine_name := s.engineName
  if env_name = "all" then
    let r := refreshAllLoop engine_name refreshV (find_all_environments s)
      s.jobs
    { session := { s with jobs := r.1 }, calls := r.2.1, result := r.2.2 }
  else
    match find_env_by_name s.environments env_name with
    | none =>
        { session := s,
          result := .error (.attributeError
            "NoneType object has no attribute reference") }
    | some env_obj =>
        match refreshV env_obj.reference with
        | .ok job =>
            { session := { s with jobs := setKey s.jobs engine_name job },
              calls := [.refreshCall env_obj.reference] }
        | .error err =>
            if err.isDlpxOrRequest then
              { session := s, calls := [.refreshCall env_obj.reference],
                result := .error (.dlpxException ("Refreshing " ++ env_name
                  ++ " encountered an error:\n" ++ err.message)) }
            else
              { session := s, calls := [.refreshCall env_obj.reference],
                result := .error err }

/-- Stand-in for the `str()` rendering of a
`vo.ASEHostEnvironmentParameters` object in `list_env`'s output line. -/
def renderAse (p : ASEHostEnvironmentParametersVO) : String :=
  "ASEHostEnvironmentParameters: db_user=" ++ pyShow p.db_user

/-- One print line of `list_env` (src/dx_environment.py:180-190), chosen by
the environment's `type`. -/
def listEnvLine (env : EnvObj) (env_user env_host : String) : String :=
  if env.envType = "WindowsHostEnvironment" then
    "Environment Name: " ++ env.name ++ ", Username: " ++ env_user ++
      ", Host: " ++ env_host ++ ",Enabled: " ++ toString env.enabled
  else if env.envType = "WindowsCluster" ∨ env.envType = "OracleCluster" then
    "Environment Name: " ++ env.name ++ ", Username: " ++ env_user ++
      "Enabled: " ++ toString env.enabled ++ ", "
  else
    "Environment Name: " ++ env.name ++ ", Username: " ++ env_user ++
      ", Host: " ++ env_host ++ ", Enabled: " ++ toString env.enabled ++
      ", ASE Environment Params: " ++
      (match env.ase_host_environment_parameters with
       | some p => renderAse p
       | none => "Undefined")

/-- The `for env in all_envs:` loop of `list_env`
(src/dx_environment.py:172-190), threading `env_host` (initialised to `''`
and kept across iterations when an environment has no `host` attribute:
the `AttributeError` from `env.host` is caught by `except AttributeError:
pass`).  The `env_user` lookup is unguarded, so its failure propagates, as
does a failure of the host-name lookup (only `AttributeError` is caught).
Returns the lines printed before any failure, and the outcome. -/
def listEnvLoop (s : Session) :
    List EnvObj → String → List String × Except PyErr Unit
  | [], _ => ([], .ok ())
  | env :: rest, env_host =>
      match find_obj_name s.envUsers env.primary_user with
      | .error e => ([], .error e)
      | .ok env_user =>
          match (match env.host with
                 | none => Except.ok env_host
                 | some href =>
                     find_obj_name
                       (s.hosts.map fun (h : HostObj) => (h.reference, h.name))
                       href) with
          | .error e => ([], .error e)
          | .ok env_host' =>
              let line := listEnvLine env env_user env_host'
              let r := listEnvLoop s rest env_host'
              (line :: r.1, r.2)

/-- `list_env` (src/dx_environment.py:164-190).  `environment.get_all` is
issued with NO exception handler around it: a vendor failure there
propagates to the caller.  The function never touches the jobs mapping. -/
def list_env (s : Session) (getAll : Except PyErr (List EnvObj)) :
    ActionResult :=
  match getAll with
  | .error e => { session := s, calls := [.getAllCall], result := .error e }
  | .ok all_envs =>
      let r := listEnvLoop s all_envs ""
      { session := s, calls := [.getAllCall], printed := r.1, result := r.2 }

/-- The statements of `create_linux_env` guarded by `try/except KeyError`
(src/dx_environment.py:290-295): two attribute assignments
(`...db_user = ase_user`, `...credentials = {...}`) and a dictionary
literal `{'type': 'PasswordCredential', 'password': ase_pw}`.  In Python
neither an attribute assignment nor a dictionary literal can raise
`KeyError`, so the block always succeeds; when `ase_pw` is `None` the
credentials dictionary is built with `'password': None`. -/
def aseBlock (ase_user : String) (ase_pw : Option String) :
    Except PyErr ASEHostEnvironmentParametersVO :=
  .ok { db_user := some ase_user,
        credentials := some { ctype := "PasswordCredential",
                              password := ase_pw } }

/-- The request-construction part of `create_linux_env`
(src/dx_environment.py:266-298).  Lines 266-273 build a
`UnixHostCreateParameters` host environment (host address, name, toolkit
path) and the primary user; lines 274-278 pick the credential
(`SystemKeyCredential` when `passwd is None`, else a `PasswordCredential`
with its `password` assigned); lines 279-284 set the `host_parameters`
dictionary literal; line 285 REPLACES `host_environment` with a fresh
`vo.UnixHostEnvironment()` that gets only `name` (line 286) and, `if
ase_user:` is truthy, the ASE parameters via the `try/except KeyError`
block whose handler would raise
`DlpxException('--ase_user and --ase_pw ARGUMENTS are required for ASE DBs\n')`. -/
def create_linux_params (env_name host_user ip_addr toolkit_path : String)
    (passwd ase_user ase_pw : Option String) :
    Except PyErr HostEnvironmentCreateParameters :=
  let credential : CredentialVO :=
    match passwd with
    | none => .systemKeyCredential
    | some pw => .passwordCredential (some pw)
  let base : HostEnvironmentCreateParameters :=
    { host_environment := some (.unixHostCreateParameters (some env_name)
        (some { address := some ip_addr,
                toolkit_path := some toolkit_path })),
      primary_user := some { name := some host_user,
                             credential := some credential },
      host_parameters := some (.dict ip_addr "UnixHost" env_name
        toolkit_path) }
  let withEnv : HostEnvironmentCreateParameters :=
    { base with
      host_environment := some (.unixHostEnvironment (some env_name) none
        none) }
  match ase_user with
  | none => .ok withEnv
  | some u =>
      if u = "" then .ok withEnv
      else
        match aseBlock u ase_pw with
        | .ok aseParams =>
            .ok { withEnv with
                  host_environment := some (.unixHostEnvironment
                    (some env_name) none (some aseParams)) }
        | .error (.keyError _) =>
            .error (.dlpxException
              "--ase_user and --ase_pw ARGUMENTS are required for ASE DBs\n")
        | .error e => .error e

/-- The shared `try: environment.create(...)` tail of the two create
functions (src/dx_environment.py:299-309 and 351-358): on success the job
reference is stored under the engine name; a
`DlpxException`/`RequestError`/`HttpError` is re-raised wrapped as
`DlpxException('ERROR: Encountered an exception while creating the
environment:...')`; `create_linux_env` additionally wraps a `JobError`
(`wrapJobError = true`) where `create_windows_env` lets it propagate
raw. -/
def createTail (s : Session) (p : HostEnvironmentCreateParameters)
    (outcome : Except PyErr String) (wrapJobError : Bool) : ActionResult :=
  match outcome with
  | .ok job =>
      { session := { s with jobs := setKey s.jobs s.engineName job },
        calls := [.createCall p] }
  | .error err =>
      if err.isDlpxRequestOrHttp then
        { session := s, calls := [.createCall p],
          result := .error (.dlpxException
            ("ERROR: Encountered an exception while creating the " ++
              "environment:\n" ++ err.message)) }
      else
        match wrapJobError, err with
        | true, .jobError m =>
            { session := s, calls := [.createCall p],
              result := .error (.dlpxException
                ("JobError while creating environment:\n" ++ m)) }
        | _, e =>
            { session := s, calls := [.createCall p],
              result := .error e }

/-- `create_linux_env` (src/dx_environment.py:243-309): build the request
(`create_linux_params`), issue `environment.create` and handle its outcome
(`createTail` with `JobError` wrapping). -/
def create_linux_env (s : Session)
    (env_name host_user ip_addr toolkit_path : String)
    (passwd ase_user ase_pw : Option String)
    (createV : HostEnvironmentCreateParameters → Except PyErr String) :
    ActionResult :=
  match create_linux_params env_name host_user ip_addr toolkit_path passwd
      ase_user ase_pw with
  | .error e => { session := s, result := .error e }
  | .ok env_params_obj =>
      createTail s env_params_obj (createV env_params_obj) true

/-- The request built by `create_windows_env` before the connector check
(src/dx_environment.py:330-341): primary user with a `PasswordCredential`
whose password is `passwd` (possibly `None`), `WindowsHostCreateParameters`
host parameters (name, connector port 9100, address), and a
`WindowsHostEnvironment` host environment carrying only the name. -/
def create_windows_params (env_name host_user ip_addr : String)
    (passwd : Option String) : HostEnvironmentCreateParameters where
  primary_user :=
    some { name := some host_user,
           credential := some (.passwordCredential passwd) }
  host_parameters :=
    some (.windowsHostCreateParameters (some env_name)
      (some { connector_port := some 9100, address := some ip_addr }))
  host_environment :=
    some (.windowsHostEnvironment (some env_name) none)

/-- `create_windows_env` (src/dx_environment.py:312-358).  `env_obj` starts
as `None` and is looked up only `if connector_name:` is truthy; when it
remains `None` (connector name absent, empty or unresolvable) the function
raises `DlpxObjectNotFound(f'Host was not found in the Engine: ...')`
BEFORE issuing the create call.  When the lookup succeeds, line 347 reads
`env_obj.host`: on an environment lacking the `host` attribute (`host =
none`, as on cluster environments — the convention `list_env`'s
`except AttributeError` documents) this raises an uncaught
`AttributeError` outside any `try`, and no create call is issued.
Otherwise the request's `host_environment.proxy` is set to that host and
the create call is issued, with `DlpxException`/`RequestError`/`HttpError`
re-raised wrapped (a `JobError` is not caught here and propagates raw). -/
def create_windows_env (s : Session) (env_name host_user ip_addr : String)
    (passwd connector_name : Option String)
    (createV : HostEnvironmentCreateParameters → Except PyErr String) :
    ActionResult :=
  let env_params_obj := create_windows_params env_name host_user ip_addr
    passwd
  let env_obj : Option EnvObj :=
    if pyTruthy connector_name then
      find_env_by_name s.environments (connector_name.getD "")
    else none
  match env_obj with
  | none =>
      { session := s,
        result := .error (.dlpxObjectNotFound
          ("Host was not found in the Engine: " ++ pyShow connector_name)) }
  | some connector_env =>
      match connector_env.host with
      | none =>
          { session := s,
            result := .error (.attributeError
              "connector environment object has no attribute host") }
      | some proxy_host =>
          let env_params_obj' :=
            { env_params_obj with
              host_environment := some (.windowsHostEnvironment
                (some env_name) (some proxy_host)) }
          createTail s env_params_obj' (createV env_params_obj') false

/- ## The exit-code ladder of `main` -/

/-- CPython's handling of an uncaught `SystemExit` instance
(`handle_system_exit` in `pythonrun.c`): the `code` attribute of an
exception-instance value is dug out exactly once; then `None` exits 0, an
`int` exits with that status (truncated to a byte on POSIX), and any other
value — including another `SystemExit` instance — is printed to stderr and
exits 1. -/
def handleSystemExit (exc : PyVal) : Nat :=
  let value : PyVal :=
    match exc with
    | .vexc code => code
    | v => v
  match value with
  | .vnone => 0
  | .vint n => (n % 256).toNat
  | _ => 1

/-- `sys.exit(arg)` raises `SystemExit` with `code = arg`; when nothing
catches it the process exit status is `handleSystemExit` of that
instance. -/
def sysExitStatus (arg : PyVal) : Nat := handleSystemExit (.vexc arg)

/-- The `try/except` ladder of `main` (src/dx_environment.py:423-479) as a
map from the outcome of its body (session setup, `run_job` fan-out, joins)
to the final process exit status.  `sys.exit(2)` / `sys.exit(3)` in the
`DlpxException` / `HttpError` / `JobError` handlers; `except SystemExit as
err: sys.exit(err)` re-raises with the caught EXCEPTION OBJECT as the
argument; `KeyboardInterrupt` is logged and `main` returns normally;
anything uncaught (e.g. a bare `RequestError`) produces a traceback and
status 1. -/
def mainExitStatus (body : Except PyErr Unit) : Nat :=
  match body with
  | .ok _ => 0
  | .error (.systemExit v) => sysExitStatus (.vexc v)
  | .error (.dlpxException _) => sysExitStatus (.vint 2)
  | .error (.dlpxObjectNotFound _) => sysExitStatus (.vint 2)
  | .error (.httpError _) => sysExitStatus (.vint 2)
  | .error (.jobError _) => sysExitStatus (.vint 3)
  | .error .keyboardInterrupt => 0
  | .error _ => 1

/- ## Derived observations used by the theorems -/

/-- The requests passed to `environment.create` among an action's calls. -/
def ActionResult.createRequests (r : ActionResult) :
    List HostEnvironmentCreateParameters :=
  r.calls.filterMap fun c =>
    match c with
    | .createCall p => some p
    | _ => none

/-- The `address` field of the host object built by
`update_host_address`. -/
def HostUpdateVO.addr : HostUpdateVO → Option String
  | .windowsHost a _ => a
  | .unixHost a _ => a

/-- The credential `create_linux_env` selects for the primary user:
key-based when `passwd` is `None`, else a password credential carrying
`passwd`. -/
def credSpec : Option String → CredentialVO
  | none => .systemKeyCredential
  | some pw => .passwordCredential (some pw)

/-- The ASE parameters `create_linux_env` attaches to the final host
environment: present exactly when `ase_user` is truthy, with the
credentials dictionary carrying `ase_pw` as is (possibly `None`). -/
def aseSpec (ase_user ase_pw : Option String) :
    Option ASEHostEnvironmentParametersVO :=
  match ase_user with
  | none => none
  | some u =>
      if u = "" then none
      else some { db_user := some u,
                  credentials := some { ctype := "PasswordCredential",
                                        password := ase_pw } }

/-- The ASE credentials dictionary inside a built create request, when
present. -/
def aseCredsOf (p : HostEnvironmentCreateParameters) : Option AseCredDict :=
  match p.host_environment with
  | some (.unixHostEnvironment _ _ (some ap)) => ap.credentials
  | _ => none

/- ## Concrete engine fixture -/

/-- A Unix environment registered on the fixture engine. -/
def envLin : EnvObj :=
  { name := "linuxEnv", reference := "ENV-1",
    envType := "UnixHostEnvironment", host := some "HOST-1",
    primary_user := "USER-1", enabled := true }

/-- A Windows environment registered on the fixture engine. -/
def envWin : EnvObj :=
  { name := "winEnv", reference := "ENV-2",
    envType := "WindowsHostEnvironment", host := some "HOST-2",
    primary_user := "USER-2", enabled := true }

/-- A Unix-typed host registered on the fixture engine. -/
def hostUnix : HostObj :=
  { name := "10.0.0.1", reference := "HOST-1", hostType := "UnixHost",
    address := "10.0.0.1" }

/-- A Windows-typed host registered on the fixture engine. -/
def hostWin : HostObj :=
  { name := "10.0.0.2", reference := "HOST-2", hostType := "WindowsHost",
    address := "10.0.0.2" }

/-- A session against one engine holding two environments and two hosts,
with one job already recorded. -/
def sess : Session :=
  { dlpx_engines := ["engine1"], jobs := [("engine1", "JOB-0")],
    environments := [envLin, envWin], hosts := [hostUnix, hostWin],
    envUsers := [("USER-1", "delphix"), ("USER-2", "admin")] }

/-- A vendor operation that always succeeds, recording job `JOB-1`. -/
def vendorOk : String → Except PyErr String := fun _ => .ok "JOB-1"

/-- A vendor refresh that fails with a `RequestError` on `ENV-1` and
succeeds on everything else. -/
def vendorReqFail : String → Except PyErr String := fun r =>
  if r = "ENV-1" then .error (.requestError "boom") else .ok "JOB-2"

/-- A vendor create call that always succeeds. -/
def createOk : HostEnvironmentCreateParameters → Except PyErr String :=
  fun _ => .ok "JOB-3"

/-- A vendor host update that always succeeds. -/
def updateOk : String → HostUpdateVO → Except PyErr String :=
  fun _ _ => .ok "JOB-4"

/- ## Helper lemmas -/

lemma isDlpxRequestOrHttp_of_isDlpxOrRequest {e : PyErr}
    (h : e.isDlpxOrRequest = true) : e.isDlpxRequestOrHttp = true := by
  cases e <;> simp_all [PyErr.isDlpxOrRequest, PyErr.isDlpxRequestOrHttp]

/-- Whatever the vendor create call returns, exactly the one create call
with the built request is issued. -/
lemma createTail_calls (s : Session) (p : HostEnvironmentCreateParameters)
    (o : Except PyErr String) (w : Bool) :
    (createTail s p o w).calls = [.createCall p] := by
  cases o with
  | ok job => rfl
  | error err =>
      simp only [createTail]
      split
      · rfl
      · split <;> rfl

lemma createTail_createRequests (s : Session)
    (p : HostEnvironmentCreateParameters) (o : Except PyErr String)
    (w : Bool) : (createTail s p o w).createRequests = [p] := by
  simp [ActionResult.createRequests, createTail_calls]

/-- The enable/disable/update shape never touches the session. -/
lemma loggedCallTail_session (s : Session) (c : Call)
    (f : String → String) (o : Except PyErr String) :
    (loggedCallTail s c f o).session = s := by
  cases o with
  | ok _ => rfl
  | error err =>
      simp only [loggedCallTail]
      split <;> rfl

/-- The enable/disable/update shape issues exactly its one vendor call. -/
lemma loggedCallTail_calls (s : Session) (c : Call)
    (f : String → String) (o : Except PyErr String) :
    (loggedCallTail s c f o).calls = [c] := by
  cases o with
  | ok _ => rfl
  | error err =>
      simp only [loggedCallTail]
      split <;> rfl

/-- A caught failure in the enable/disable/update shape is logged and the
function returns normally. -/
lemma loggedCallTail_caught (s : Session) (c : Call)
    (f : String → String) (err : PyErr)
    (hk : err.isDlpxOrRequest = true) :
    (loggedCallTail s c f (.error err)).result = .ok () ∧
    (loggedCallTail s c f (.error err)).logged = [f err.message] := by
  simp [loggedCallTail, hk]

/-- `list_env` never touches the session. -/
lemma list_env_session (s : Session) (g : Except PyErr (List EnvObj)) :
    (list_env s g).session = s := by
  cases g <;> rfl

/-- `create_linux_params` never fails: the `try/except KeyError` block in
`create_linux_env` guards only statements that cannot raise `KeyError`. -/
lemma create_linux_params_eq (env_name host_user ip_addr toolkit_path :
    String) (passwd ase_user ase_pw : Option String) :
    create_linux_params env_name host_user ip_addr toolkit_path passwd
      ase_user ase_pw =
    .ok { host_environment := some (.unixHostEnvironment (some env_name)
            none (aseSpec ase_user ase_pw)),
          primary_user := some { name := some host_user,
                                 credential := some (credSpec passwd) },
          host_parameters := some (.dict ip_addr "UnixHost" env_name
            toolkit_path) } := by
  cases passwd <;> cases ase_user <;>
    simp only [create_linux_params, aseBlock, aseSpec, credSpec] <;>
    first
      | rfl
      | (rename_i u; by_cases hu : u = "" <;> simp [hu])

/- ## Claim theorems -/

/-- C1: on an unresolvable environment name, `delete_env` issues no delete
call and leaves the engine's job mapping unchanged — but, against the
claim's "raises a not-found error", it raises nothing: the
`elif env_obj is None:` branch (src/dx_environment.py:207-209) constructs
`DlpxObjectNotFound(...)` without a `raise`, discards it, and the function
returns normally.  Evaluated at the failing input: the fixture session,
whose engine has no environment named `missing`. -/
theorem delete_env_unresolved_silently_returns :
    (delete_env sess "missing" vendorOk).result = .ok () ∧
    (delete_env sess "missing" vendorOk).calls = [] ∧
    (delete_env sess "missing" vendorOk).session.jobs =
      [("engine1", "JOB-0")] := by
  decide

/-- C2: in the request `create_linux_env` passes to `environment.create`,
the primary user's credential is a `SystemKeyCredential` when `passwd` is
`None`, and a `PasswordCredential` whose `password` field equals `passwd`
otherwise (see `credSpec`). -/
theorem create_linux_env_credential_choice (s : Session)
    (env_name host_user ip_addr toolkit_path : String)
    (passwd ase_user ase_pw : Option String)
    (createV : HostEnvironmentCreateParameters → Except PyErr String) :
    (create_linux_env s env_name host_user ip_addr toolkit_path passwd
        ase_user ase_pw createV).createRequests.map
      (fun (p : HostEnvironmentCreateParameters) => p.primary_user) =
    [some { name := some host_user,
            credential := some (credSpec passwd) }] := by
  have hp := create_linux_params_eq env_name host_user ip_addr toolkit_path
    passwd ase_user ase_pw
  unfold create_linux_env
  rw [hp]
  simp [createTail_createRequests]

/-- C6: the exit-code ladder of `main` maps a `DlpxException` and an
`HttpError` to exit code 2, a `JobError` to 3, and normal completion to 0;
but an explicit `SystemExit(5)` does NOT propagate its code: the handler
`except SystemExit as err: sys.exit(err)` passes the exception object
itself to `sys.exit`, so CPython prints it and exits with status 1 (code
bug at src/dx_environment.py:446-448, against the handler's own comment
"This is what we use to handle our sys.exit(#)"). -/
theorem main_exit_codes_systemexit_lost :
    mainExitStatus (.error (.systemExit (.vint 5))) = 1 ∧
    mainExitStatus (.ok ()) = 0 ∧
    mainExitStatus (.error (.dlpxException "err")) = 2 ∧
    mainExitStatus (.error (.httpError "err")) = 2 ∧
    mainExitStatus (.error (.jobError "err")) = 3 := by
  decide

/-- C9: the request `create_linux_env` finally passes to
`environment.create` carries a freshly constructed `UnixHostEnvironment`
holding only the environment name (and the optional ASE parameters): its
`host` field — where the address and toolkit path were assigned on the
first, overwritten host environment — is unset, and the address and
toolkit path survive only in the plain `host_parameters` dictionary. -/
theorem create_linux_env_final_request_shape (s : Session)
    (env_name host_user ip_addr toolkit_path : String)
    (passwd ase_user ase_pw : Option String)
    (createV : HostEnvironmentCreateParameters → Except PyErr String) :
    (create_linux_env s env_name host_user ip_addr toolkit_path passwd
        ase_user ase_pw createV).createRequests.map
      (fun (p : HostEnvironmentCreateParameters) =>
        (p.host_environment, p.host_parameters)) =
    [(some (.unixHostEnvironment (some env_name) none
        (aseSpec ase_user ase_pw)),
      some (.dict ip_addr "UnixHost" env_name toolkit_path))] := by
  have hp := create_linux_params_eq env_name host_user ip_addr toolkit_path
    passwd ase_user ase_pw
  unfold create_linux_env
  rw [hp]
  simp [createTail_createRequests]

/-- C10: the `except KeyError` branch of `create_linux_env`'s ASE block is
unreachable — `create_linux_params` never yields the
`'--ase_user and --ase_pw ARGUMENTS are required for ASE DBs'` error for
any input — and when `ase_user` is given while `ase_pw` is `None`, the ASE
credentials are silently built with password `None` instead of an error
being raised. -/
theorem create_linux_env_ase_guard_unreachable
    (env_name host_user ip_addr toolkit_path : String)
    (passwd ase_user ase_pw : Option String) (u : String) (hu : u ≠ "") :
    (create_linux_params env_name host_user ip_addr toolkit_path passwd
        ase_user ase_pw ≠
      .error (.dlpxException
        "--ase_user and --ase_pw ARGUMENTS are required for ASE DBs\n")) ∧
    (create_linux_params env_name host_user ip_addr toolkit_path passwd
        (some u) none).map aseCredsOf =
      .ok (some { ctype := "PasswordCredential", password := none }) := by
  constructor
  · rw [create_linux_params_eq]
    simp
  · rw [create_linux_params_eq]
    simp [Except.map, aseCredsOf, aseSpec, hu]

/-- C3: with `connector_name` absent (`None`), `create_windows_env` raises
the `DlpxObjectNotFound` error before issuing any create call; with a
connector name that resolves to an environment carrying a `host`
attribute, the request passed to `environment.create` has
`host_environment.proxy` set to that environment's `host` (an environment
without the attribute instead raises `AttributeError` at the
`env_obj.host` read, before the create call). -/
theorem create_windows_env_connector (s : Session)
    (env_name host_user ip_addr cn ch : String) (passwd : Option String)
    (cEnv : EnvObj)
    (createV : HostEnvironmentCreateParameters → Except PyErr String)
    (hcn : cn ≠ "")
    (hfindc : find_env_by_name s.environments cn = some cEnv)
    (hhost : cEnv.host = some ch) :
    (create_windows_env s env_name host_user ip_addr passwd none
        createV).result =
      .error (.dlpxObjectNotFound
        "Host was not found in the Engine: None") ∧
    (create_windows_env s env_name host_user ip_addr passwd none
        createV).calls = [] ∧
    (create_windows_env s env_name host_user ip_addr passwd (some cn)
        createV).createRequests.map
      (fun (p : HostEnvironmentCreateParameters) => p.host_environment) =
    [some (.windowsHostEnvironment (some env_name) cEnv.host)] := by
  refine ⟨?_, ?_, ?_⟩
  · simp [create_windows_env, pyTruthy, pyShow]
  · simp [create_windows_env, pyTruthy]
  · simp [create_windows_env, pyTruthy, hcn, hfindc, hhost,
      createTail_createRequests]

/-- Witness for C3 at a concrete input: the fixture session, connector
name `winEnv` resolving to `envWin`, whose host is `HOST-2`. -/
theorem create_windows_env_connector_witness :
    (create_windows_env sess "w" "admin" "10.0.1.50" none none
        createOk).result =
      .error (.dlpxObjectNotFound
        "Host was not found in the Engine: None") ∧
    (create_windows_env sess "w" "admin" "10.0.1.50" none none
        createOk).calls = [] ∧
    (create_windows_env sess "w" "admin" "10.0.1.50" none (some "winEnv")
        createOk).createRequests.map
      (fun (p : HostEnvironmentCreateParameters) => p.host_environment) =
    [some (.windowsHostEnvironment (some "w") envWin.host)] :=
  create_windows_env_connector sess "w" "admin" "10.0.1.50" "winEnv"
    "HOST-2" none envWin createOk (by decide) (by decide) (by decide)

/-- C4 counterexample: on the fixture session, whose engine holds two
environments, `refresh_env("all")` with the refresh of `ENV-1` failing
with a `RequestError` issues both refresh calls and does not abort — but
the failure is aggregated nowhere: nothing is logged and the function
returns normally (the handler at src/dx_environment.py:228-231 constructs
a `DlpxException` and discards it without `raise` or logging), refuting
"the independent failures are aggregated". -/
theorem refresh_env_all_failure_discarded :
    vendorReqFail "ENV-1" = .error (.requestError "boom") ∧
    (refresh_env sess "all" vendorReqFail).calls =
      [.refreshCall "ENV-1", .refreshCall "ENV-2"] ∧
    (refresh_env sess "all" vendorReqFail).logged = [] ∧
    (refresh_env sess "all" vendorReqFail).result = .ok () := by
  decide

/-- The refresh-all loop issues one refresh call per environment and ends
normally whenever every failure is of a caught kind. -/
lemma refreshAllLoop_spec (engine_name : String)
    (refreshV : String → Except PyErr String)
    (hV : ∀ ref e, refreshV ref = .error e → e.isDlpxOrRequest = true) :
    ∀ (envs : List EnvObj) (jobs : List (String × String)),
      (refreshAllLoop engine_name refreshV envs jobs).2.1 =
        envs.map (fun (env : EnvObj) => Call.refreshCall env.reference) ∧
      (refreshAllLoop engine_name refreshV envs jobs).2.2 = .ok () := by
  intro envs
  induction envs with
  | nil => intro jobs; simp [refreshAllLoop]
  | cons env rest ih =>
      intro jobs
      cases hr : refreshV env.reference with
      | ok job => simp [refreshAllLoop, hr, ih]
      | error err =>
          have hk := hV _ _ hr
          simp [refreshAllLoop, hr, hk, ih]

/-- C4 amended: on an engine holding any list of environments,
`refresh_env("all")` issues exactly one refresh call per environment when
every failure is a caught `DlpxException`/`RequestError`; such failures do
not abort the remaining refreshes, but they are discarded rather than
aggregated: nothing is logged and the function returns normally. -/
theorem refresh_env_all_one_call_per_env (s : Session)
    (refreshV : String → Except PyErr String)
    (hV : ∀ ref e, refreshV ref = .error e → e.isDlpxOrRequest = true) :
    (refresh_env s "all" refreshV).calls =
      s.environments.map
        (fun (env : EnvObj) => Call.refreshCall env.reference) ∧
    (refresh_env s "all" refreshV).result = .ok () ∧
    (refresh_env s "all" refreshV).logged = [] := by
  have h := refreshAllLoop_spec s.engineName refreshV hV
    (find_all_environments s) s.jobs
  simp only [refresh_env, if_pos rfl, find_all_environments] at h ⊢
  exact ⟨h.1, h.2, rfl⟩

/-- Witness for C4's amended claim on the fixture session with the
`ENV-1`-failing refresh oracle. -/
theorem refresh_env_all_one_call_per_env_witness :
    (refresh_env sess "all" vendorReqFail).calls =
      sess.environments.map
        (fun (env : EnvObj) => Call.refreshCall env.reference) ∧
    (refresh_env sess "all" vendorReqFail).result = .ok () ∧
    (refresh_env sess "all" vendorReqFail).logged = [] :=
  refresh_env_all_one_call_per_env sess vendorReqFail (by
    intro ref e h
    by_cases hr : ref = "ENV-1"
    · simp [vendorReqFail, hr] at h
      simp [← h, PyErr.isDlpxOrRequest]
    · simp [vendorReqFail, hr] at h)

/-- C5: when the old host address resolves, `update_host_address` passes
`host.update` a `vo.WindowsHost` exactly when the resolved host's type is
`'WindowsHost'` and a `vo.UnixHost` otherwise, and in both cases the built
object's `address` field is the new host address. -/
theorem update_host_address_host_type (s : Session)
    (old_host_address new_host_address : String)
    (updateV : String → HostUpdateVO → Except PyErr String)
    (hObj : HostObj)
    (hfind : find_host_by_name s.hosts old_host_address = some hObj) :
    (update_host_address s old_host_address new_host_address
        updateV).calls =
      [.hostUpdateCall hObj.reference
        (if hObj.hostType = "WindowsHost" then
          .windowsHost (some new_host_address) none
        else
          .unixHost (some new_host_address) none)] ∧
    (if hObj.hostType = "WindowsHost" then
        HostUpdateVO.windowsHost (some new_host_address) none
      else
        HostUpdateVO.unixHost (some new_host_address) none).addr =
      some new_host_address := by
  constructor
  · unfold update_host_address
    rw [hfind]
    exact loggedCallTail_calls _ _ _ _
  · split <;> rfl

/-- Witness for C5 at a concrete input: the fixture session's
Windows-typed host `10.0.0.2`. -/
theorem update_host_address_host_type_witness :
    (update_host_address sess "10.0.0.2" "10.9.9.9" updateOk).calls =
      [.hostUpdateCall hostWin.reference
        (if hostWin.hostType = "WindowsHost" then
          .windowsHost (some "10.9.9.9") none
        else
          .unixHost (some "10.9.9.9") none)] ∧
    (if hostWin.hostType = "WindowsHost" then
        HostUpdateVO.windowsHost (some "10.9.9.9") none
      else
        HostUpdateVO.unixHost (some "10.9.9.9") none).addr =
      some "10.9.9.9" :=
  update_host_address_host_type sess "10.0.0.2" "10.9.9.9" updateOk
    hostWin (by decide)

/-- C7 counterexample: `list_env` does NOT catch a failing vendor call:
`environment.get_all` raising a `RequestError` propagates to the caller
and nothing is logged (src/dx_environment.py:170 has no handler), refuting
"enable_environment, disable_environment and list_env catch the
vendor/local exception, log it, and return normally". -/
theorem list_env_vendor_failure_propagates :
    (list_env sess (.error (.requestError "boom"))).result =
      .error (.requestError "boom") ∧
    (list_env sess (.error (.requestError "boom"))).logged = [] := by
  decide

/-- C7 amended: for a failing vendor call of a caught kind
(`DlpxException`/`RequestError`), `enable_environment` and
`disable_environment` log and return normally; `list_env` lets the
failure propagate uncaught; `create_linux_env`, `create_windows_env`
(reached with a connector environment that carries a `host`) and the
single-name branch of `refresh_env` re-raise it wrapped in a local
`DlpxException`; the `"all"` branch of `refresh_env` neither re-raises nor
logs — it discards the failures and returns normally. -/
theorem error_policy (s : Session) (env_name cn ch hu ip tk : String)
    (pw au ap : Option String) (eObj cEnv : EnvObj) (err : PyErr)
    (hfind : find_env_by_name s.environments env_name = some eObj)
    (hall : env_name ≠ "all")
    (hcn : cn ≠ "")
    (hfindc : find_env_by_name s.environments cn = some cEnv)
    (hchost : cEnv.host = some ch)
    (hkind : err.isDlpxOrRequest = true) :
    (enable_environment s env_name (fun _ => .error err)).result =
      .ok () ∧
    (enable_environment s env_name (fun _ => .error err)).logged =
      ["ERROR: Enabling the host " ++ env_name ++
        " encountered an error:\n" ++ err.message] ∧
    (disable_environment s env_name (fun _ => .error err)).result =
      .ok () ∧
    (disable_environment s env_name (fun _ => .error err)).logged =
      ["ERROR: Disabling the host " ++ env_name ++
        " encountered an error:\n" ++ err.message] ∧
    (list_env s (.error err)).result = .error err ∧
    (list_env s (.error err)).logged = [] ∧
    (create_linux_env s env_name hu ip tk pw au ap
        (fun _ => .error err)).result =
      .error (.dlpxException
        ("ERROR: Encountered an exception while creating the " ++
          "environment:\n" ++ err.message)) ∧
    (create_windows_env s env_name hu ip pw (some cn)
        (fun _ => .error err)).result =
      .error (.dlpxException
        ("ERROR: Encountered an exception while creating the " ++
          "environment:\n" ++ err.message)) ∧
    (refresh_env s env_name (fun _ => .error err)).result =
      .error (.dlpxException ("Refreshing " ++ env_name ++
        " encountered an error:\n" ++ err.message)) ∧
    (refresh_env s "all" (fun _ => .error err)).result = .ok () ∧
    (refresh_env s "all" (fun _ => .error err)).logged = [] := by
  have hk3 := isDlpxRequestOrHttp_of_isDlpxOrRequest hkind
  have hloop := refresh_env_all_one_call_per_env s (fun _ => .error err)
    (by intro ref e h; injection h with h'; rw [← h']; exact hkind)
  refine ⟨?_, ?_, ?_, ?_, ?_, ?_, ?_, ?_, ?_, hloop.2.1, hloop.2.2⟩
  · unfold enable_environment; rw [hfind]; simp [loggedCallTail, hkind]
  · unfold enable_environment; rw [hfind]; simp [loggedCallTail, hkind]
  · unfold disable_environment; rw [hfind]; simp [loggedCallTail, hkind]
  · unfold disable_environment; rw [hfind]; simp [loggedCallTail, hkind]
  · simp [list_env]
  · simp [list_env]
  · unfold create_linux_env
    rw [create_linux_params_eq]
    simp [createTail, hk3]
  · simp [create_windows_env, pyTruthy, hcn, hfindc, hchost, createTail,
      hk3]
  · unfold refresh_env
    simp [hall, hfind, hkind]

/-- Witness for C7's amended claim on the fixture session: environment
`linuxEnv`, connector `winEnv`, failure `RequestError "boom"`. -/
theorem error_policy_witness :
    (enable_environment sess "linuxEnv"
        (fun _ => .error (.requestError "boom"))).result = .ok () ∧
    (enable_environment sess "linuxEnv"
        (fun _ => .error (.requestError "boom"))).logged =
      ["ERROR: Enabling the host " ++ "linuxEnv" ++
        " encountered an error:\n" ++ (PyErr.requestError "boom").message] ∧
    (disable_environment sess "linuxEnv"
        (fun _ => .error (.requestError "boom"))).result = .ok () ∧
    (disable_environment sess "linuxEnv"
        (fun _ => .error (.requestError "boom"))).logged =
      ["ERROR: Disabling the host " ++ "linuxEnv" ++
        " encountered an error:\n" ++ (PyErr.requestError "boom").message] ∧
    (list_env sess (.error (.requestError "boom"))).result =
      .error (.requestError "boom") ∧
    (list_env sess (.error (.requestError "boom"))).logged = [] ∧
    (create_linux_env sess "linuxEnv" "u" "1.2.3.4" "/tk" none none none
        (fun _ => .error (.requestError "boom"))).result =
      .error (.dlpxException
        ("ERROR: Encountered an exception while creating the " ++
          "environment:\n" ++ (PyErr.requestError "boom").message)) ∧
    (create_windows_env sess "linuxEnv" "u" "1.2.3.4" none (some "winEnv")
        (fun _ => .error (.requestError "boom"))).result =
      .error (.dlpxException
        ("ERROR: Encountered an exception while creating the " ++
          "environment:\n" ++ (PyErr.requestError "boom").message)) ∧
    (refresh_env sess "linuxEnv"
        (fun _ => .error (.requestError "boom"))).result =
      .error (.dlpxException ("Refreshing " ++ "linuxEnv" ++
        " encountered an error:\n" ++ (PyErr.requestError "boom").message)) ∧
    (refresh_env sess "all"
        (fun _ => .error (.requestError "boom"))).result = .ok () ∧
    (refresh_env sess "all"
        (fun _ => .error (.requestError "boom"))).logged = [] :=
  error_policy sess "linuxEnv" "winEnv" "HOST-2" "u" "1.2.3.4" "/tk" none
    none none envLin envWin (.requestError "boom") (by decide) (by decide)
    (by decide) (by decide) (by decide) (by decide)

/-- C8 counterexample: `enable_environment` on the fixture session
succeeds (the vendor call returns job `JOB-1`) yet the engine's job
mapping still holds only the old entry: the returned job handle is not
captured, refuting "every action function ... captures the returned job
handle" — `enable_environment`, `disable_environment`,
`update_host_address` and `list_env` have no `dlpx_obj.jobs[...] =
dlpx_obj.server_session.last_job` line. -/
theorem enable_environment_drops_job :
    (enable_environment sess "linuxEnv" vendorOk).result = .ok () ∧
    (enable_environment sess "linuxEnv" vendorOk).calls =
      [.enableCall "ENV-1"] ∧
    (enable_environment sess "linuxEnv" vendorOk).session.jobs =
      [("engine1", "JOB-0")] := by
  decide

/-- C8 amended: after a successful vendor call, `create_linux_env`,
`create_windows_env` (reached with a connector environment that carries a
`host`), `delete_env` and `refresh_env` store the returned job reference
under the engine name in the session's job mapping; `enable_environment`,
`disable_environment`, `update_host_address` and `list_env` leave the job
mapping untouched whatever their vendor call returns. -/
theorem job_capture_policy (s : Session)
    (env_name cn ch hu ip tk old new job : String)
    (pw au ap : Option String) (eObj cEnv : EnvObj)
    (ev dv : String → Except PyErr String)
    (uv : String → HostUpdateVO → Except PyErr String)
    (ga : Except PyErr (List EnvObj))
    (hfind : find_env_by_name s.environments env_name = some eObj)
    (hall : env_name ≠ "all")
    (hcn : cn ≠ "")
    (hfindc : find_env_by_name s.environments cn = some cEnv)
    (hchost : cEnv.host = some ch) :
    (delete_env s env_name (fun _ => .ok job)).session.jobs =
      setKey s.jobs s.engineName job ∧
    (refresh_env s env_name (fun _ => .ok job)).session.jobs =
      setKey s.jobs s.engineName job ∧
    (create_linux_env s env_name hu ip tk pw au ap
        (fun _ => .ok job)).session.jobs =
      setKey s.jobs s.engineName job ∧
    (create_windows_env s env_name hu ip pw (some cn)
        (fun _ => .ok job)).session.jobs =
      setKey s.jobs s.engineName job ∧
    (enable_environment s env_name ev).session.jobs = s.jobs ∧
    (disable_environment s env_name dv).session.jobs = s.jobs ∧
    (update_host_address s old new uv).session.jobs = s.jobs ∧
    (list_env s ga).session.jobs = s.jobs := by
  refine ⟨?_, ?_, ?_, ?_, ?_, ?_, ?_, ?_⟩
  · unfold delete_env; rw [hfind]
  · unfold refresh_env; simp [hall, hfind]
  · unfold create_linux_env
    rw [create_linux_params_eq]
    simp [createTail]
  · simp [create_windows_env, pyTruthy, hcn, hfindc, hchost, createTail]
  · cases hf : find_env_by_name s.environments env_name <;>
      simp [enable_environment, hf, loggedCallTail_session]
  · cases hf : find_env_by_name s.environments env_name <;>
      simp [disable_environment, hf, loggedCallTail_session]
  · cases hf : find_host_by_name s.hosts old <;>
      simp [update_host_address, hf, loggedCallTail_session]
  · rw [list_env_session]

/-- Witness for C8's amended claim on the fixture session. -/
theorem job_capture_policy_witness :
    (delete_env sess "linuxEnv" (fun _ => .ok "JOB-9")).session.jobs =
      setKey sess.jobs sess.engineName "JOB-9" ∧
    (refresh_env sess "linuxEnv" (fun _ => .ok "JOB-9")).session.jobs =
      setKey sess.jobs sess.engineName "JOB-9" ∧
    (create_linux_env sess "linuxEnv" "u" "1.2.3.4" "/tk" none none none
        (fun _ => .ok "JOB-9")).session.jobs =
      setKey sess.jobs sess.engineName "JOB-9" ∧
    (create_windows_env sess "linuxEnv" "u" "1.2.3.4" none (some "winEnv")
        (fun _ => .ok "JOB-9")).session.jobs =
      setKey sess.jobs sess.engineName "JOB-9" ∧
    (enable_environment sess "linuxEnv" vendorOk).session.jobs =
      sess.jobs ∧
    (disable_environment sess "linuxEnv" vendorOk).session.jobs =
      sess.jobs ∧
    (update_host_address sess "10.0.0.2" "10.9.9.9" updateOk).session.jobs =
      sess.jobs ∧
    (list_env sess (.ok [])).session.jobs = sess.jobs :=
  job_capture_policy sess "linuxEnv" "winEnv" "HOST-2" "u" "1.2.3.4" "/tk"
    "10.0.0.2" "10.9.9.9" "JOB-9" none none none envLin envWin vendorOk
    vendorOk updateOk (.ok []) (by decide) (by decide) (by decide)
    (by decide) (by decide)

/-- Witness for C10 at a concrete input: `ase_user = "sa"`, `ase_pw =
None`. -/
theorem create_linux_env_ase_guard_unreachable_witness :
    (create_linux_params "env1" "delphix" "10.0.0.5" "/var/opt/delphix"
        none (some "sa") none ≠
      .error (.dlpxException
        "--ase_user and --ase_pw ARGUMENTS are required for ASE DBs\n")) ∧
    (create_linux_params "env1" "delphix" "10.0.0.5" "/var/opt/delphix"
        none (some "sa") none).map aseCredsOf =
      .ok (some { ctype := "PasswordCredential", password := none }) :=
  create_linux_env_ase_guard_unreachable "env1" "delphix" "10.0.0.5"
    "/var/opt/delphix" none (some "sa") none "sa" (by decide)

end DxEnv
